import Mathlib

/-!
Verification development for the `lil-cn` userscript family
("Lost in Laminate zhCN Translation").

The repository consists of four variants of a single userscript.  We
shallowly embed the parts of the scripts that carry state and logic:

* the dictionary loader cascade (`loadDict`),
* the node translator (`translateOne` and its variants),
* the polling fallback (`pollTick` / `pollRun`),
* the remote-sync handlers (`checkRemoteTranslations`, `etagOnload`),
* the rolling fingerprint (`simpleHash`).

Variants referenced below:
* "8.0 variant"      : `Lost_in_Laminate_CN.user.js` (v1.0.1)
* "v1.0.0 variant"   : the first unnamed source (v1.0.0)
* "compact variant"  : the second unnamed source (v1.1.2, 10.0f)
* "v1.1.1 variant"   : the second script in the second unnamed source
* "2.0 variant"      : the third unnamed source (v2.0-10.0f)

JavaScript strings are modelled by Lean `String`; `charCodeAt`
sequences by `List Nat` of UTF-16 code units (exact for BMP text);
`JSON.parse` — an external browser builtin — by an abstract
`parse : String → Option Dict` parameter, `none` standing for a thrown
`SyntaxError`.  Machine arithmetic (`| 0`, `>>> 0`) is modelled by
explicit `% 2^32` on `Nat`.
-/

namespace LilCn

/-- A translation dictionary: the JSON object mapping passage keys to
translated strings.  `lookup k = none` models `dict[k] === undefined`
(the `v == null` guard in the scripts). -/
abbrev Dict := List (String × String)

/-- JavaScript truthiness of a nullable string (`null` and `""` are
falsy): `GM_getValue(key, null)` and `tryGetResource` both yield a
string-or-null, and the loaders test it with `if (cachedStr)` /
`if (devStr)`. -/
def truthy (o : Option String) : Option String :=
  match o with
  | some s => if s = "" then none else some s
  | none => none

/-- Models `tryGetResource('translations_init') || '{}'` in the 8.0
variant loader: a falsy resource value is replaced by the literal
`'{}'`. -/
def orEmptyObj (o : Option String) : String :=
  match truthy o with
  | some s => s
  | none => "\x7b\x7d"

/-- The dictionary-loader cascade of the 8.0 variant
(`Lost_in_Laminate_CN.user.js` lines 63–79):

```js
let dict = {};
try {
  const cachedStr = GM_getValue(CACHE_KEY_DICT, null);
  if (cachedStr) { dict = JSON.parse(cachedStr); }
  else {
    const devStr = tryGetResource('translations_dev');
    if (devStr) { dict = JSON.parse(devStr); }
    else { dict = JSON.parse(tryGetResource('translations_init') || '{}'); }
  }
} catch (e) { dict = {}; }
```

`cache`, `dev`, `init` are the nullable string values of the persisted
cache slot and the two resources (`none` models both a missing value
and a resource whose lookup threw, which `tryGetResource` converts to
`null`).  The single `try`/`catch` around the whole cascade means any
`JSON.parse` failure ends the load with the empty dictionary; this is
captured by `Option.getD []` at each parse site, since exactly one
parse executes per run. -/
def loadDict (parse : String → Option Dict) (cache dev init : Option String) : Dict :=
  match truthy cache with
  | some s => (parse s).getD []
  | none =>
      match truthy dev with
      | some s => (parse s).getD []
      | none => (parse (orEmptyObj init)).getD []

/-- A concrete stand-in for `JSON.parse` used to instantiate theorems:
it accepts the two fixed payloads used in witnesses and rejects
everything else. -/
def testParse (s : String) : Option Dict :=
  if s = "\x7b\x7d" then some []
  else if s = "\x7b\"a\":\"b\"\x7d" then some [("a", "b")]
  else none

/-- `normalize` on the character list: the regex replacement
`str.replace(/\r\n?/g, '\n')` — every `\r\n` pair and every lone `\r`
becomes a single `\n` (the regex is greedy, so `\r\n` is consumed as
one match). -/
def normalizeChars : List Char → List Char
  | [] => []
  | '\r' :: '\n' :: rest => '\n' :: normalizeChars rest
  | '\r' :: rest => '\n' :: normalizeChars rest
  | c :: rest => c :: normalizeChars rest

/-- `function normalize(str) { return String(str).replace(/\r\n?/g, '\n'); }`
(identical in all variants; the `String(...)` coercion is the identity
on the string inputs the scripts pass). -/
def normalize (s : String) : String := ⟨normalizeChars s.data⟩

/-- A DOM node, as far as the scripts observe it: a text node or an
element with a tag, attributes and children.  Translated content is
only ever created through the `text` constructor
(`document.createTextNode` / a `textContent` assignment), which the
browser never parses as markup. -/
inductive DomNode where
  | text (s : String)
  | elem (tag : String) (attrs : List (String × String)) (children : List DomNode)

mutual

/-- `node.textContent` (read): the concatenation of all descendant
text. -/
def DomNode.textContent : DomNode → String
  | .text s => s
  | .elem _ _ cs => textContentList cs

/-- `textContent` of a list of sibling nodes. -/
def textContentList : List DomNode → String
  | [] => ""
  | n :: ns => n.textContent ++ textContentList ns

end

/-- `el.textContent = s` (write): removes every child and, when `s` is
non-empty, appends a single text node holding `s` verbatim. -/
def setTextContent (s : String) : List DomNode :=
  if s = "" then [] else [DomNode.text s]

/-- An element node as the translator sees it (the `nodeType !== 1`
guard restricts the scripts to element nodes, so the model carries
elements directly).  `attrs.lookup "name"` models
`el.getAttribute('name')`, with `none` for the `null` of a missing
attribute. -/
structure Element where
  tag : String
  attrs : List (String × String)
  children : List DomNode

/-- `translateOne` of the 8.0 variant (`Lost_in_Laminate_CN.user.js`
lines 88–97; the v1.0.0 variant is identical):

```js
function translateOne(el) {
  if (!el || el.nodeType !== 1) return;
  const name = el.getAttribute('name');
  if (!name) return;
  const v = dict[name];
  if (v == null) return;
  const cn = normalize(v);
  while (el.firstChild) el.removeChild(el.firstChild);
  el.appendChild(document.createTextNode(cn));
}
```

The `while`/`appendChild` pair replaces the children with exactly one
fresh text node holding the normalized translation. -/
def translateOne (dict : Dict) (el : Element) : Element :=
  match el.attrs.lookup "name" with
  | none => el
  | some name =>
    if name = "" then el
    else
      match dict.lookup name with
      | none => el
      | some v => { el with children := [DomNode.text (normalize v)] }

/-- `translateOne` of the 2.0 variant (third unnamed source, lines
76–87): it compares the normalized current `textContent` against the
normalized translation and assigns `el.textContent = cnEscaped`
(the raw, unnormalized translation) only when they differ. -/
def translateOneCmp (dict : Dict) (el : Element) : Element :=
  match el.attrs.lookup "name" with
  | none => el
  | some name =>
    if name = "" then el
    else
      match dict.lookup name with
      | none => el
      | some v =>
        if normalize (textContentList el.children) = normalize v then el
        else { el with children := setTextContent v }

/-- `el?.matches?.('tw-passagedata[name]')`: the CSS attribute-presence
selector `[name]` matches an element that carries the attribute even
when its value is the empty string. -/
def matchesPassage (el : Element) : Bool :=
  el.tag = "tw-passagedata" && (el.attrs.lookup "name").isSome

/-- `translateOne` of the compact variant (second unnamed source,
lines 75–81):

```js
function translateOne(el){
  if(!el?.matches?.('tw-passagedata[name]'))return;
  const cn = dict[el.getAttribute('name')];
  if(cn==null)return;
  while(el.firstChild)el.removeChild(el.firstChild);
  el.appendChild(document.createTextNode(normalize(cn)));
}
```

Unlike the other variants it has no `if (!name) return` truthiness
guard: a present-but-empty `name` attribute passes the selector and is
looked up as the empty key. -/
def translateOneCompact (dict : Dict) (el : Element) : Element :=
  if matchesPassage el then
    match dict.lookup ((el.attrs.lookup "name").getD "") with
    | none => el
    | some cn => { el with children := [DomNode.text (normalize cn)] }
  else el

/-- 2^32, the modulus induced by JavaScript's 32-bit integer coercion
`| 0` followed by the unsigned reinterpretation `>>> 0`. -/
abbrev M32 : Nat := 4294967296

/-- `simpleHash` (8.0 variant lines 175–181, identical in v1.0.0 and
2.0):

```js
function simpleHash(str) {
  let h = 0;
  for (let i = 0; i < str.length; i++) {
    h = (h * 31 + str.charCodeAt(i)) | 0;
  }
  return (h >>> 0).toString(16);
}
```

`cs` is the string's sequence of UTF-16 code units (`charCodeAt`
values).  `(h * 31 + c) | 0` keeps the value congruent mod 2^32 and
`h >>> 0` selects the representative in `[0, 2^32)`, so the returned
value is the fold below; the final `.toString(16)` is an injective hex
rendering of that number, so fingerprint-string equality coincides
with equality of `simpleHash`. -/
def simpleHash (cs : List Nat) : Nat :=
  cs.foldl (fun h c => (h * 31 + c) % M32) 0

/-- The UTF-16 code units of a string (exact for BMP text, which is
all the scripts ever hash in practice; the model fixes one unit per
character). -/
def strUnits (s : String) : List Nat := s.data.map Char.toNat

/-- The polling fallback's state: `pollCount` and whether the interval
is still installed (`clearInterval` not yet called). -/
structure PollState where
  count : Nat
  active : Bool
deriving DecidableEq

/-- `const pollMax = 10;` (8.0 variant line 123). -/
def pollMax : Nat := 10

/-- One timer tick of the 8.0 variant's polling fallback (lines
124–127):

```js
const pollTimer = setInterval(() => {
  translateAllExisting();
  if (++pollCount >= pollMax) clearInterval(pollTimer);
}, 100);
```

Returns the successor state and whether this tick ran a full scan
(`translateAllExisting`).  A cancelled interval never fires, so an
inactive state is absorbing and scans nothing. -/
def pollTick (s : PollState) : PollState × Bool :=
  if s.active then
    ({ count := s.count + 1, active := decide (s.count + 1 < pollMax) }, true)
  else (s, false)

/-- The polling state after `n` timer ticks from startup
(`pollCount = 0`, interval installed). -/
def pollRun : Nat → PollState
  | 0 => { count := 0, active := true }
  | n + 1 => (pollTick (pollRun n)).1

/-- Whether the tick following the first `n` ticks issues a scan. -/
def pollScanAt (n : Nat) : Bool := (pollTick (pollRun n)).2

/-- The persistent and in-memory state the hash-strategy remote sync
can observe or touch: the two `GM_setValue` cache slots and the
in-memory `dict`.  The fingerprint slot holds the `simpleHash` value
(its hex rendering being injective, the `Nat` stands for the stored
string). -/
structure SyncState where
  cacheDict : Option String
  cacheHash : Option Nat
  memDict : Dict
deriving DecidableEq

/-- The outcome of the single `GM_xmlhttpRequest`: a transport error
or timeout (`onerror` / `ontimeout` path), or a loaded response with
its HTTP status, body text and optional `ETag` header. -/
inductive RemoteOutcome where
  | error
  | load (status : Nat) (body : String) (etag : Option String)
deriving DecidableEq

/-- The externally visible actions a remote-sync handler can perform,
in the order it performs them.  There is no constructor for scheduling
a retry or a later request: the scripts have no such mechanism. -/
inductive Effect where
  | setDict (payload : String)
  | setHash (fp : Nat)
  | setEtag (tag : String)
  | reload
  | logWarn
  | logInfo
deriving DecidableEq

/-- The reload policy shared by all variants:
`if (ASK_BEFORE_RELOAD) { if (hidden || confirm(...)) reload } else reload`.
`confirmA` is the user's answer to the prompt. -/
def shouldReload (ask hidden confirmA : Bool) : Bool :=
  if ask then hidden || confirmA else true

/-- The `checkRemoteTranslations` response handling of the 8.0 variant
(lines 136–169; v1.0.0 and 2.0 are identical), as a function from the
request outcome and current state to the new state plus the effect
trace:

```js
onload: (r) => {
  if (r.status !== 200) { console.warn(...); return; }
  const txt = r.responseText;
  let remoteDict;
  try { remoteDict = JSON.parse(txt); }
  catch (e) { console.warn(...); return; }
  const remoteHash = simpleHash(txt);
  const localHash  = GM_getValue(CACHE_KEY_HASH, null);
  if (remoteHash !== localHash) {
    console.log(...);
    GM_setValue(CACHE_KEY_DICT, txt);
    GM_setValue(CACHE_KEY_HASH, remoteHash);
    if (ASK_BEFORE_RELOAD) { if (hidden || confirm(...)) location.reload(); }
    else location.reload();
  }
},
onerror: () => { console.warn(...); }
```

The in-memory `dict` is not in scope of the handler's writes, so
`memDict` is carried through unchanged on every path. -/
def checkRemoteTranslations (parse : String → Option Dict)
    (ask hidden confirmA : Bool) (st : SyncState) (o : RemoteOutcome) :
    SyncState × List Effect :=
  match o with
  | .error => (st, [.logWarn])
  | .load status body _ =>
    if status ≠ 200 then (st, [.logWarn])
    else
      match parse body with
      | none => (st, [.logWarn])
      | some _ =>
        let remoteHash := simpleHash (strUnits body)
        if st.cacheHash = some remoteHash then (st, [])
        else
          ({ st with cacheDict := some body, cacheHash := some remoteHash },
           [.logInfo, .setDict body, .setHash remoteHash] ++
             (if shouldReload ask hidden confirmA then [.reload] else []))

/-- State observable by the conditional-fetch (`ETag`) variant: the
dictionary slot, the validator slot (a string `ETag`), and the
in-memory dictionary. -/
structure EtagState where
  cacheDict : Option String
  cacheEtag : Option String
  memDict : Dict
deriving DecidableEq

/-- The `onload` handling of the compact variant (second unnamed
source, lines 101–115; the v1.1.1 variant's `checkRemote` behaves the
same on the paths modelled here):

```js
onload:r=>{
  if(r.status===304) return;            // 无更新
  if(r.status!==200){console.warn(...);return;}
  const newEtag = getHeader(r,'etag');
  const body=r.responseText;
  try{
    JSON.parse(body);  // 验证格式
    GM_setValue(CACHE_DICT_KEY,body);
    if(newEtag)GM_setValue(CACHE_ETAG_KEY,newEtag);
    console.log(...);
    if(!ASK_BEFORE_RELOAD||hidden||confirm(...)){ location.reload(); }
  }catch(e){console.warn(...);}
}
```

The compact variant registers no `onerror` handler, so a transport
error runs no code at all. -/
def etagOnload (parse : String → Option Dict)
    (ask hidden confirmA : Bool) (st : EtagState) (o : RemoteOutcome) :
    EtagState × List Effect :=
  match o with
  | .error => (st, [])
  | .load status body etag =>
    if status = 304 then (st, [])
    else if status ≠ 200 then (st, [.logWarn])
    else
      match parse body with
      | none => (st, [.logWarn])
      | some _ =>
        ({ st with cacheDict := some body,
                   cacheEtag := match etag with | some t => some t | none => st.cacheEtag },
         [.setDict body] ++ (match etag with | some t => [.setEtag t] | none => []) ++
           [.logInfo] ++ (if shouldReload ask hidden confirmA then [.reload] else []))

/-! ### Helper lemmas -/

/-- One step of `simpleHash`, carried out in `ZMod M32` (the `| 0`
wrap-around made explicit as modular arithmetic). -/
def hashStepZ (h : ZMod M32) (c : Nat) : ZMod M32 := h * 31 + (c : ZMod M32)

theorem foldl_hash_cast (cs : List Nat) (h : Nat) :
    ((cs.foldl (fun h c => (h * 31 + c) % M32) h : Nat) : ZMod M32) =
      cs.foldl hashStepZ ((h : ZMod M32)) := by
  induction cs generalizing h with
  | nil => rfl
  | cons c cs ih =>
    rw [List.foldl_cons, List.foldl_cons, ih, ZMod.natCast_mod]
    push_cast [hashStepZ]
    ring_nf

theorem simpleHash_cast (cs : List Nat) :
    ((simpleHash cs : Nat) : ZMod M32) = cs.foldl hashStepZ 0 := by
  have := foldl_hash_cast cs 0
  simpa [simpleHash] using this

theorem isUnit_31 : IsUnit (31 : ZMod M32) := by
  have h31 : ((31 : Nat) : ZMod M32) = (31 : ZMod M32) := by push_cast; ring
  rw [← h31]
  exact (ZMod.isUnit_iff_coprime 31 M32).mpr (by decide)

theorem hashStepZ_inj (c : Nat) : Function.Injective (fun h : ZMod M32 => hashStepZ h c) := by
  intro a b hab
  simp only [hashStepZ] at hab
  have h1 : a * 31 = b * 31 := by
    have := add_right_cancel hab
    exact this
  exact IsUnit.mul_right_cancel isUnit_31 h1

theorem foldl_hashStepZ_inj (cs : List Nat) :
    Function.Injective (fun h : ZMod M32 => cs.foldl hashStepZ h) := by
  induction cs with
  | nil => intro a b hab; simpa using hab
  | cons c cs ih =>
    intro a b hab
    simp only [List.foldl_cons] at hab
    exact hashStepZ_inj c (ih hab)

theorem simpleHash_lt (cs : List Nat) : simpleHash cs < M32 := by
  have key : ∀ (l : List Nat) (h : Nat), h < M32 →
      l.foldl (fun h c => (h * 31 + c) % M32) h < M32 := by
    intro l
    induction l with
    | nil => intro h hh; simpa using hh
    | cons c cs ih =>
      intro h hh
      rw [List.foldl_cons]
      exact ih _ (Nat.mod_lt _ (by norm_num))
  exact key cs 0 (by norm_num)

/-! ### Claim theorems -/

/-- C3 counterexample: the fingerprints of the two distinct serialized
dictionary payloads `{"a":"Aa"}` and `{"a":"BB"}` (which encode the
different dictionaries `a ↦ Aa` and `a ↦ BB`) are equal, so equal
`simpleHash` fingerprints do not imply equal payloads, and a change to
the payload need not change the fingerprint. -/
theorem simpleHash_collision :
    simpleHash (strUnits "\x7b\"a\":\"Aa\"\x7d") = simpleHash (strUnits "\x7b\"a\":\"BB\"\x7d") ∧
      ("\x7b\"a\":\"Aa\"\x7d" : String) ≠ "\x7b\"a\":\"BB\"\x7d" := by
  decide

/-- C3 amended: `simpleHash` is a deterministic pure function of the
payload, and substituting a single UTF-16 code unit of the payload in
place always changes the fingerprint (31 is invertible mod 2^32, so
each fold step is injective); however, equal fingerprints do not imply
equal payloads — the 32-bit hash admits collisions between payloads
that differ in more than one position. -/
theorem simpleHash_single_unit_change_ne (pre post : List Nat) (c c' : Nat)
    (hc : c < M32) (hc' : c' < M32) (hne : c ≠ c') :
    simpleHash (pre ++ c :: post) ≠ simpleHash (pre ++ c' :: post) := by
  intro h
  have hz := congrArg (fun n : Nat => (n : ZMod M32)) h
  simp only [simpleHash_cast, List.foldl_append, List.foldl_cons] at hz
  have hstep := foldl_hashStepZ_inj post hz
  simp only [hashStepZ] at hstep
  have hcc : ((c : ZMod M32)) = ((c' : ZMod M32)) := add_left_cancel hstep
  have : c = c' := by
    have hv := congrArg ZMod.val hcc
    rwa [ZMod.val_cast_of_lt hc, ZMod.val_cast_of_lt hc'] at hv
  exact hne this

/-- C3 witness: the amended theorem applied at a concrete single-unit
substitution (`"Aa"` versus `"Ba"`). -/
theorem simpleHash_single_unit_change_ne_witness :
    (65 : Nat) ≠ 66 ∧ simpleHash [65, 97] ≠ simpleHash [66, 97] :=
  ⟨by decide,
   simpleHash_single_unit_change_ne [] [97] 65 66 (by norm_num) (by norm_num) (by decide)⟩

/-- C1 counterexample: with a persisted cache slot holding the truthy
but unparsable string `"oops"` and a present, valid bundled snapshot
`{"a":"b"}`, the loader returns the empty dictionary — it does not
fall through to the snapshot, refuting the claimed cascade-on-parse-
failure behavior (the single `try`/`catch` wraps the whole cascade). -/
theorem loadDict_malformed_cache_not_fallthrough :
    loadDict testParse (some "oops") none (some "\x7b\"a\":\"b\"\x7d") = [] ∧
      testParse "\x7b\"a\":\"b\"\x7d" = some [("a", "b")] ∧
      ([] : Dict) ≠ [("a", "b")] := by
  decide

/-- C1 amended: a parse failure at any step of the cascade is caught
and makes the loader return the empty mapping (it does not fall
through to the remaining sources); only an absent or empty source
falls through to the next one; and no error reaches the caller (the
loader is a total function). -/
theorem loadDict_parse_failure_yields_empty (parse : String → Option Dict)
    (cache dev init : Option String) :
    (∀ s, truthy cache = some s → parse s = none →
       loadDict parse cache dev init = []) ∧
    (∀ s, truthy cache = none → truthy dev = some s → parse s = none →
       loadDict parse cache dev init = []) ∧
    (truthy cache = none → truthy dev = none → parse (orEmptyObj init) = none →
       loadDict parse cache dev init = []) := by
  refine ⟨?_, ?_, ?_⟩
  · intro s hs hp
    simp [loadDict, hs, hp]
  · intro s hc hs hp
    simp [loadDict, hc, hs, hp]
  · intro hc hd hp
    simp [loadDict, hc, hd, hp]

/-- C1 amended witness: the amended theorem applied to a malformed
cache value with no other sources present. -/
theorem loadDict_parse_failure_yields_empty_witness :
    loadDict testParse (some "oops") none none = [] :=
  (loadDict_parse_failure_yields_empty testParse (some "oops") none none).1
    "oops" (by decide) (by decide)

/-- C6: the fallback cascade resolves as specified — with an empty
cache slot (and no dev resource) and a present snapshot that parses to
`d`, the loader returns `d`; with every source absent, `JSON.parse`
runs on the literal `'{}'` (which parses to the empty mapping) and the
loader returns the empty dictionary; in both cases the loader returns
normally. -/
theorem loadDict_cascade_correct (parse : String → Option Dict)
    (cache dev init : Option String) :
    (∀ s d, truthy cache = none → truthy dev = none → truthy init = some s →
       parse s = some d → loadDict parse cache dev init = d) ∧
    (truthy cache = none → truthy dev = none → truthy init = none →
       parse "\x7b\x7d" = some [] → loadDict parse cache dev init = []) := by
  constructor
  · intro s d hc hd hi hp
    simp [loadDict, orEmptyObj, hc, hd, hi, hp]
  · intro hc hd hi hp
    simp [loadDict, orEmptyObj, hc, hd, hi, hp]

/-- C6 witness: the cascade theorem applied to an empty cache and the
concrete snapshot `{"a":"b"}`. -/
theorem loadDict_cascade_correct_witness :
    loadDict testParse none none (some "\x7b\"a\":\"b\"\x7d") = [("a", "b")] :=
  (loadDict_cascade_correct testParse none none (some "\x7b\"a\":\"b\"\x7d")).1
    "\x7b\"a\":\"b\"\x7d" [("a", "b")] rfl rfl (by decide) (by decide)

theorem textContentList_setTextContent (s : String) :
    textContentList (setTextContent s) = s := by
  by_cases h : s = ""
  · simp [setTextContent, h, textContentList]
  · simp [setTextContent, h, textContentList, DomNode.textContent]

/-- C4: the Node Translator is idempotent — a second application with
the same dictionary changes nothing more: for the 8.0 variant's
`translateOne` the double application equals the single one, and for
the 2.0 variant's comparing `translateOne` (`translateOneCmp`) a
second application is a strict no-op; moreover `translateOneCmp`
normalizes line endings in the current content and the translation
before comparing and leaves the element untouched when they agree. -/
theorem translateOne_idempotent (d : Dict) (el : Element) :
    translateOne d (translateOne d el) = translateOne d el ∧
    translateOneCmp d (translateOneCmp d el) = translateOneCmp d el ∧
    (∀ name v, el.attrs.lookup "name" = some name → name ≠ "" →
       d.lookup name = some v →
       normalize (textContentList el.children) = normalize v →
       translateOneCmp d el = el) := by
  refine ⟨?_, ?_, ?_⟩
  · cases hn : el.attrs.lookup "name" with
    | none => simp [translateOne, hn]
    | some name =>
      by_cases he : name = ""
      · simp [translateOne, hn, he]
      · cases hv : d.lookup name with
        | none => simp [translateOne, hn, he, hv]
        | some v => simp [translateOne, hn, he, hv]
  · cases hn : el.attrs.lookup "name" with
    | none => simp [translateOneCmp, hn]
    | some name =>
      by_cases he : name = ""
      · simp [translateOneCmp, hn, he]
      · cases hv : d.lookup name with
        | none => simp [translateOneCmp, hn, he, hv]
        | some v =>
          by_cases hcmp : normalize (textContentList el.children) = normalize v
          · simp [translateOneCmp, hn, he, hv, hcmp]
          · simp [translateOneCmp, hn, he, hv, hcmp, textContentList_setTextContent]
  · intro name v hn he hv hcmp
    simp [translateOneCmp, hn, he, hv, hcmp]

/-- C4 witness: the idempotence theorem applied to a concrete element
whose content already equals its translation, so the comparing variant
makes no change at all. -/
theorem translateOne_idempotent_witness :
    translateOneCmp [("p1", "hi")]
        ⟨"tw-passagedata", [("name", "p1")], [DomNode.text "hi"]⟩ =
      ⟨"tw-passagedata", [("name", "p1")], [DomNode.text "hi"]⟩ :=
  (translateOne_idempotent [("p1", "hi")]
      ⟨"tw-passagedata", [("name", "p1")], [DomNode.text "hi"]⟩).2.2
    "p1" "hi" rfl (by decide) rfl
    (by simp [textContentList, DomNode.textContent])

/-- C5 counterexample: in the compact variant, an element carrying a
present-but-empty `name` attribute still matches the selector
`tw-passagedata[name]`, and when the dictionary maps the empty key its
content is replaced — not a no-op as claimed. -/
theorem translateOneCompact_empty_name_mutates :
    (translateOneCompact [("", "x")]
        ⟨"tw-passagedata", [("name", "")], [DomNode.text "orig"]⟩).children ≠
      (⟨"tw-passagedata", [("name", "")], [DomNode.text "orig"]⟩ : Element).children := by
  intro h
  rw [show (translateOneCompact [("", "x")]
        ⟨"tw-passagedata", [("name", "")], [DomNode.text "orig"]⟩).children =
      [DomNode.text "x"] from rfl] at h
  simp at h

/-- C5 amended: the translator is a no-op whenever the identifying
attribute is missing or its value has no dictionary entry, in the 8.0
variant and the compact variant alike; the 8.0 variant (`!name`
guard) is additionally a no-op on a present-but-empty attribute, while
the compact variant treats an empty attribute as a lookup of the
empty-string key and therefore only no-ops on it when the dictionary
has no entry for that key. -/
theorem translator_unmapped_noop (d : Dict) (el : Element) :
    (el.attrs.lookup "name" = none → translateOne d el = el) ∧
    (el.attrs.lookup "name" = some "" → translateOne d el = el) ∧
    (∀ name, el.attrs.lookup "name" = some name → d.lookup name = none →
       translateOne d el = el) ∧
    (el.attrs.lookup "name" = none → translateOneCompact d el = el) ∧
    (∀ name, el.attrs.lookup "name" = some name → d.lookup name = none →
       translateOneCompact d el = el) := by
  refine ⟨?_, ?_, ?_, ?_, ?_⟩
  · intro hn
    simp [translateOne, hn]
  · intro hn
    simp [translateOne, hn]
  · intro name hn hv
    by_cases he : name = ""
    · simp [translateOne, hn, he]
    · simp [translateOne, hn, he, hv]
  · intro hn
    simp [translateOneCompact, matchesPassage, hn]
  · intro name hn hv
    by_cases hm : matchesPassage el
    · simp [translateOneCompact, hm, hn, hv]
    · simp [translateOneCompact, hm]

/-- C5 amended witness: both variants leave an element with an
unmapped identifier untouched. -/
theorem translator_unmapped_noop_witness :
    translateOne [] ⟨"tw-passagedata", [("name", "p2")], [DomNode.text "World"]⟩ =
      ⟨"tw-passagedata", [("name", "p2")], [DomNode.text "World"]⟩ :=
  (translator_unmapped_noop []
      ⟨"tw-passagedata", [("name", "p2")], [DomNode.text "World"]⟩).2.2.1
    "p2" rfl rfl

/-- C10: whenever a translator variant replaces content, the new
content is a single text node holding the translation (normalized by
the `createTextNode` variants, verbatim by the 2.0 variant's
`textContent` assignment, whose empty-string case yields no node);
being built with the `text` constructor it is inert plain text, never
parsed as markup, and the result does not depend on the prior
children, so no fragment of the prior content survives. -/
theorem translation_inserted_as_single_text_node (d : Dict) (el : Element) :
    (∀ name v, el.attrs.lookup "name" = some name → name ≠ "" →
       d.lookup name = some v →
       (translateOne d el).children = [DomNode.text (normalize v)]) ∧
    (∀ name v, el.attrs.lookup "name" = some name → name ≠ "" →
       d.lookup name = some v →
       normalize (textContentList el.children) ≠ normalize v →
       (translateOneCmp d el).children = setTextContent v) ∧
    (∀ name cn, matchesPassage el = true →
       el.attrs.lookup "name" = some name → d.lookup name = some cn →
       (translateOneCompact d el).children = [DomNode.text (normalize cn)]) := by
  refine ⟨?_, ?_, ?_⟩
  · intro name v hn he hv
    simp [translateOne, hn, he, hv]
  · intro name v hn he hv hcmp
    simp [translateOneCmp, hn, he, hv, hcmp]
  · intro name cn hm hn hv
    simp [translateOneCompact, hm, hn, hv]

/-- C10 witness: the theorem applied to a concrete translated
element — the resulting content is exactly one text node holding the
normalized translation. -/
theorem translation_inserted_as_single_text_node_witness :
    (translateOne [("p1", "line1\r\nline2")]
        ⟨"tw-passagedata", [("name", "p1")], [DomNode.text "Hello", DomNode.text "!"]⟩).children =
      [DomNode.text (normalize "line1\r\nline2")] :=
  (translation_inserted_as_single_text_node [("p1", "line1\r\nline2")]
      ⟨"tw-passagedata", [("name", "p1")], [DomNode.text "Hello", DomNode.text "!"]⟩).1
    "p1" "line1\r\nline2" rfl (by decide) rfl

/-- C2: every failing remote-sync outcome of the hash-strategy
handler — a transport error or timeout, a non-success HTTP status, or
a body that fails to parse as a mapping — produces a warning log and
nothing else: the persistent cache slots and the in-memory dictionary
are returned exactly as they were, and the effect trace contains no
write, no reload and no retry (the `Effect` type has no scheduling
action at all, matching the retry-free code). -/
theorem checkRemote_failure_preserves_state (parse : String → Option Dict)
    (ask hidden confirmA : Bool) (st : SyncState) :
    (checkRemoteTranslations parse ask hidden confirmA st .error = (st, [.logWarn])) ∧
    (∀ status body etag, status ≠ 200 →
       checkRemoteTranslations parse ask hidden confirmA st (.load status body etag) =
         (st, [.logWarn])) ∧
    (∀ body etag, parse body = none →
       checkRemoteTranslations parse ask hidden confirmA st (.load 200 body etag) =
         (st, [.logWarn])) := by
  refine ⟨rfl, ?_, ?_⟩
  · intro status body etag hs
    simp [checkRemoteTranslations, hs]
  · intro body etag hp
    simp [checkRemoteTranslations, hp]

/-- C2 witness: the failure theorem applied to a concrete 404
response. -/
theorem checkRemote_failure_preserves_state_witness :
    checkRemoteTranslations testParse true false false ⟨none, none, []⟩
        (.load 404 "x" none) =
      (⟨none, none, []⟩, [.logWarn]) :=
  (checkRemote_failure_preserves_state testParse true false false
      ⟨none, none, []⟩).2.1 404 "x" none (by decide)

/-- C7: in the conditional-fetch handler a 304 "not modified" response
returns immediately — the state (both persistent slots and the
in-memory dictionary) is unchanged and the effect trace is empty, so
nothing is written, logged or reloaded. -/
theorem etagOnload_not_modified_no_change (parse : String → Option Dict)
    (ask hidden confirmA : Bool) (st : EtagState) (body : String)
    (etag : Option String) :
    etagOnload parse ask hidden confirmA st (.load 304 body etag) = (st, []) := rfl

/-- C9: the hash-strategy handler never mutates the in-memory
dictionary, on any outcome; and on a parsed 200 response whose
fingerprint differs from the stored one, both cache slots are written
to the new payload and fingerprint, with the two writes appearing in
the effect trace before the reload decision and independently of the
`hidden`/`confirm` answer (which only gates the trailing reload). -/
theorem checkRemote_cache_updated_memdict_untouched (parse : String → Option Dict)
    (ask hidden confirmA : Bool) (st : SyncState) :
    (∀ o, (checkRemoteTranslations parse ask hidden confirmA st o).1.memDict =
       st.memDict) ∧
    (∀ body etag d, parse body = some d →
       st.cacheHash ≠ some (simpleHash (strUnits body)) →
       checkRemoteTranslations parse ask hidden confirmA st (.load 200 body etag) =
         ({ st with cacheDict := some body,
                    cacheHash := some (simpleHash (strUnits body)) },
          [.logInfo, .setDict body, .setHash (simpleHash (strUnits body))] ++
            (if shouldReload ask hidden confirmA then [.reload] else []))) := by
  constructor
  · intro o
    cases o with
    | error => rfl
    | load status body etag =>
      by_cases hs : status ≠ 200
      · simp [checkRemoteTranslations, hs]
      · cases hp : parse body with
        | none => simp [checkRemoteTranslations, hs, hp]
        | some d =>
          by_cases hh : st.cacheHash = some (simpleHash (strUnits body))
          · simp [checkRemoteTranslations, hs, hp, hh]
          · simp [checkRemoteTranslations, hs, hp, hh]
  · intro body etag d hp hh
    simp [checkRemoteTranslations, hp, hh]

/-- C9 witness: a fresh state (no stored fingerprint) adopting the
payload `{}` — the cache slots are written while the in-memory
dictionary stays empty, and with a visible document and a declined
prompt no reload occurs. -/
theorem checkRemote_cache_updated_memdict_untouched_witness :
    checkRemoteTranslations testParse true false false ⟨none, none, []⟩
        (.load 200 "\x7b\x7d" none) =
      (⟨some "\x7b\x7d", some (simpleHash (strUnits "\x7b\x7d")), []⟩,
       [.logInfo, .setDict "\x7b\x7d", .setHash (simpleHash (strUnits "\x7b\x7d"))] ++
         (if shouldReload true false false then [.reload] else [])) :=
  (checkRemote_cache_updated_memdict_untouched testParse true false false
      ⟨none, none, []⟩).2 "\x7b\x7d" none [] (by decide) (by decide)

theorem pollRun_closed (n : Nat) :
    pollRun n = if n < pollMax then ⟨n, true⟩ else ⟨pollMax, false⟩ := by
  induction n with
  | zero => simp [pollRun, pollMax]
  | succ n ih =>
    rw [pollRun, ih]
    by_cases h : n < pollMax
    · rw [if_pos h]
      by_cases h2 : n + 1 < pollMax
      · rw [if_pos h2]
        simp [pollTick, h2]
      · rw [if_neg h2]
        have hn : n + 1 = pollMax := by omega
        simp [pollTick, h2, hn]
    · rw [if_neg h, if_neg (by omega : ¬ n + 1 < pollMax)]
      simp [pollTick]

/-- C8: the polling fallback terminates — once `pollMax` (= 10) timer
ticks have elapsed since startup, the interval is cancelled
(`active = false`) and no later tick performs a full-document scan. -/
theorem polling_terminates (n : Nat) (h : pollMax ≤ n) :
    (pollRun n).active = false ∧ pollScanAt n = false := by
  have hr : pollRun n = ⟨pollMax, false⟩ := by
    rw [pollRun_closed, if_neg (by omega)]
  constructor
  · rw [hr]
  · rw [pollScanAt, hr]
    rfl

/-- C8 witness: after twelve ticks the interval is cancelled and the
next tick does not scan. -/
theorem polling_terminates_witness :
    pollMax ≤ 12 ∧ (pollRun 12).active = false ∧ pollScanAt 12 = false :=
  ⟨by decide, polling_terminates 12 (by decide)⟩

end LilCn
